import Mathlib

/-!
# Indian Railways IVR backend — verification of the dialogue engine

Shallow embedding of `ivr_backend.py` (FastAPI + Twilio conversational IVR).
Python strings are modelled as `List Char`; the per-call session store as a
function from call identifiers to optional context records; the TwiML
response built by a turn as a list of verbs.  The external Gemini NLU oracle
and the Twilio REST client are modelled as explicit outcome parameters, so
that every code path (including oracle failure) is a total function.
-/

namespace IVR

/-- Python strings, modelled as lists of characters. -/
abbrev Str := List Char

/-- Coerce a Lean string literal to the `List Char` model. -/
def str (s : String) : Str := s.data

/-! ## ASCII character semantics of the Python primitives used by the code -/

/-- Python `str.isdigit` / regex `\d`, restricted to ASCII: `'0'..'9'`. -/
def pyIsdigitChar (c : Char) : Bool := 48 ≤ c.toNat && c.toNat ≤ 57

/-- Python `str.lower` on one character (ASCII): `'A'..'Z'` map to `'a'..'z'`. -/
def pyLowerChar (c : Char) : Char :=
  if 65 ≤ c.toNat ∧ c.toNat ≤ 90 then Char.ofNat (c.toNat + 32) else c

/-- Regex `\w` (ASCII): letters, digits and underscore. -/
def pyIsWordChar (c : Char) : Bool :=
  pyIsdigitChar c || (97 ≤ c.toNat && c.toNat ≤ 122) ||
    (65 ≤ c.toNat && c.toNat ≤ 90) || c.toNat == 95

/-- Regex `\s` / `str.strip` whitespace (ASCII): space, `\t`, `\n`, `\v`, `\f`, `\r`. -/
def pyIsSpace (c : Char) : Bool := c.toNat == 32 || (9 ≤ c.toNat && c.toNat ≤ 13)

/-- Python `str.lower`. -/
def pyLower (s : Str) : Str := s.map pyLowerChar

/-- Python `str.strip`: drop whitespace from both ends. -/
def pyStrip (s : Str) : Str :=
  ((s.dropWhile pyIsSpace).reverse.dropWhile pyIsSpace).reverse

/-- Python `str.isdigit` (also `re.fullmatch(r"\d+", s)`): nonempty and all digits. -/
def pyIsdigitStr (s : Str) : Bool := !s.isEmpty && s.all pyIsdigitChar

/-- Does the pattern occur literally at position `i` of `s`? -/
def occursAt (pat s : Str) (i : Nat) : Bool := (s.drop i).take pat.length == pat

/-- Is the character at position `i` (if any) a word character? -/
def wordAt (s : Str) (i : Nat) : Bool :=
  match s.get? i with
  | some c => pyIsWordChar c
  | none => false

/-- Regex `\b`: a word boundary between positions `i-1` and `i` (0 ≤ i ≤ length). -/
def boundaryAt (s : Str) (i : Nat) : Bool :=
  if i = 0 then wordAt s 0 else wordAt s (i - 1) != wordAt s i

/-- `re.search(r"\b(a₁|…|aₙ)\b", s)` for literal alternatives: some alternative
occurs at some position with word boundaries on both sides. -/
def searchWB (alts : List Str) (s : Str) : Bool :=
  (List.range (s.length + 1)).any fun i =>
    alts.any fun a =>
      occursAt a s i && boundaryAt s i && boundaryAt s (i + a.length)

/-- Python substring containment `pat in s`. -/
def pyIn (pat s : Str) : Bool :=
  (List.range (s.length + 1)).any fun i => occursAt pat s i

/-- After at least one whitespace char was consumed: skip further whitespace,
then require a word character (tail of matching `\s+\w+`). -/
def wsWordAux : Str → Bool
  | [] => false
  | c :: rest => if pyIsSpace c = true then wsWordAux rest else pyIsWordChar c

/-- Does `\s+\w+` match at the start of `s`?  (`\s` and `\w` are disjoint, so
the greedy scan is exact.) -/
def wsThenWord : Str → Bool
  | [] => false
  | c :: rest => pyIsSpace c && wsWordAux rest

/-- After one digit was consumed: an optional second digit, then `\s+\w+`. -/
def dateAtAux : Str → Bool
  | [] => false
  | d :: rest => if pyIsdigitChar d = true then wsThenWord rest else wsThenWord (d :: rest)

/-- Does `\d{1,2}\s+\w+` match at the start of `s`? -/
def dateAt : Str → Bool
  | [] => false
  | c :: rest => pyIsdigitChar c && dateAtAux rest

/-- `re.search(r"\d{1,2}\s+\w+", s)`: the date pattern matches at some position. -/
def dateSearch : Str → Bool
  | [] => false
  | c :: rest => dateAt (c :: rest) || dateSearch rest

/-! ## External NLU oracle (`detect_intent_gemini`) -/

/-- Outcome of one consultation of the Gemini oracle: the API key may be
missing, the call may raise any exception, or it may return a text. -/
inductive OracleOutcome where
  | noKey
  | exn
  | reply (s : String)

/-- The fixed closed intent set accepted from the oracle (`valid_intents`). -/
def valid_intents : List String :=
  ["book_ticket", "check_pnr", "cancel_ticket", "fare_enquiry",
   "tatkal_info", "talk_agent", "special_assistance",
   "train_live_status", "platform_locator", "unknown"]

/-- `detect_intent_gemini`: returns `"unknown"` when the key is missing or the
call raises; otherwise strips the reply and validates it against the fixed
intent set, degrading to `"unknown"` on anything outside the set. -/
def detect_intent_gemini (g : OracleOutcome) : String :=
  match g with
  | .noKey => "unknown"
  | .exn => "unknown"
  | .reply s => if valid_intents.contains s.trim then s.trim else "unknown"

/-! ## Intent classification -/

/-- `map_digits_to_intent`: the fixed DTMF digit → intent table. -/
def map_digits_to_intent (digits : Str) : String :=
  if digits = str "1" then "book_ticket"
  else if digits = str "2" then "check_pnr"
  else if digits = str "3" then "cancel_ticket"
  else if digits = str "4" then "fare_enquiry"
  else if digits = str "5" then "tatkal_info"
  else if digits = str "6" then "talk_agent"
  else if digits = str "7" then "special_assistance"
  else if digits = str "8" then "train_live_status"
  else if digits = str "9" then "platform_locator"
  else "unknown"

/-- The ordered keyword/regex fallback block of `detect_intent` (lines 152-171):
first matching rule wins. -/
def ruleIntent (t : Str) : String :=
  if searchWB [str "cancel", str "refund"] t = true then "cancel_ticket"
  else if searchWB [str "book", str "reserve", str "ticket", str "reservation"] t = true then
    "book_ticket"
  else if searchWB [str "pnr", str "status"] t = true then "check_pnr"
  else if searchWB [str "fare", str "cost", str "price", str "how much"] t = true then
    "fare_enquiry"
  else if searchWB [str "tatkal"] t = true then "tatkal_info"
  else if searchWB [str "agent", str "operator", str "representative", str "customer care"] t = true then
    "talk_agent"
  else if searchWB [str "assistance", str "help", str "support"] t = true then
    "special_assistance"
  else if searchWB [str "live status", str "running status", str "where is train", str "running"] t = true then
    "train_live_status"
  else if searchWB [str "platform", str "which platform", str "where platform"] t = true then
    "platform_locator"
  else "unknown"

/-- `detect_intent`: `None` guard, normalize (lower then strip), digit strings
go to the DTMF table, then the Gemini oracle, then the keyword rules. -/
def detect_intent (g : OracleOutcome) (text : Option Str) : String :=
  match text with
  | none => "unknown"
  | some t0 =>
    let t := pyStrip (pyLower t0)
    if pyIsdigitStr t = true then map_digits_to_intent t
    else
      let intent := detect_intent_gemini g
      if intent ≠ "unknown" then intent
      else ruleIntent t

/-! ## Session store, configuration and TwiML decisions -/

/-- Per-call context record (the dict stored in `session_context`):
`last_intent` plus slot fields accumulated during a multi-turn flow.  An
absent dict key is modelled as `none`. -/
structure Ctx where
  last_intent : Option String
  booking_class : Option String
  booking_date : Option Str
deriving DecidableEq

/-- The `session_context` dict: call identifier → optional context record. -/
def Store := String → Option Ctx

/-- `session_context[call_id] = ctx`. -/
def Store.put (σ : Store) (k : String) (c : Ctx) : Store :=
  fun k' => if k' = k then some c else σ k'

/-- `session_context.pop(call_id, None)` (the store after deletion). -/
def Store.pop (σ : Store) (k : String) : Store :=
  fun k' => if k' = k then none else σ k'

/-- The store with no records. -/
def emptyStore : Store := fun _ => none

/-- Environment configuration consumed by the conversation endpoints. -/
structure Config where
  base_webhook_url : String
  support_phone_number : String

/-- `webhook(path)`: prepend `BASE_WEBHOOK_URL` when configured, else the bare
path (local-test mode). -/
def webhook (base_url path : String) : String :=
  if base_url ≠ "" then base_url ++ path else path

/-- One TwiML verb of the response document built by a turn. -/
inductive Verb where
  | say (text : Str)
  | hangup
  | dial (number : Str)
  | gather (inner : List Verb) (action : String) (timeout : Nat)

/-- Is the verb a `gather` (keep-listening directive)? -/
def isGatherVerb : Verb → Bool
  | .gather _ _ _ => true
  | _ => false

/-! ## Dialogue engine -/

/-- The termination keywords of the goodbye check in `next_step` (line 191). -/
def termWords : List Str :=
  [str "thank you", str "thanks", str "bye", str "no", str "goodbye"]

/-- `next_step(call_id, user_text)`: the conversation follow-up handler.
Lowercases the utterance, ends the call on a termination keyword (clearing
the context), otherwise runs the follow-up branch keyed on the stored
`last_intent`, writes the (possibly mutated) context back, and keeps the
gather open.  Returns the updated store and the TwiML verbs of the
`Response`. -/
def next_step (cfg : Config) (σ : Store) (call_id : String) (ut : Option Str) :
    Store × List Verb :=
  let user_text := pyLower (ut.getD [])
  let context := (σ call_id).getD ⟨none, none, none⟩
  let last_intent := context.last_intent
  if searchWB termWords user_text = true then
    (Store.pop σ call_id,
     [Verb.say (str "Thank you for using Indian Railways helpline. Have a great journey ahead!"),
      Verb.hangup])
  else
    let p : Ctx × Str :=
      if last_intent = some "book_ticket" then
        if pyIn (str "ac") user_text = true ∨ user_text = str "1" ∨ user_text = str "ac" then
          ({ context with booking_class := some "AC" },
           str "A C class selected. Please confirm your travel date.")
        else if pyIn (str "sleeper") user_text = true ∨ user_text = str "2" ∨
            user_text = str "sleeper" then
          ({ context with booking_class := some "Sleeper" },
           str "Sleeper class selected. Please confirm your travel date.")
        else if pyIn (str "tomorrow") user_text = true ∨ pyIn (str "today") user_text = true ∨
            dateSearch user_text = true then
          ({ context with booking_date := some user_text },
           str "Booking date " ++ user_text ++
             str " noted. Your ticket will be processed soon. Would you like anything else?")
        else (context, str "Please specify your class — Sleeper or AC.")
      else if last_intent = some "check_pnr" then
        if pyIsdigitStr user_text = true ∧ user_text.length = 10 then
          (context, str "PNR " ++ user_text ++
            str " is confirmed. The train is running on time. Need further help?")
        else (context, str "Please provide a valid ten digit P N R number.")
      else if last_intent = some "train_live_status" then
        (context, str "Fetching live running status for train " ++ user_text ++
          str ". The train is currently reported on time.")
      else if last_intent = some "platform_locator" then
        (context, str "Platform information for train " ++ user_text ++
          str ": It is expected to arrive at platform number 5.")
      else (context, str "Sorry, I didn’t understand that. Could you please repeat?")
    (Store.put σ call_id p.1,
     [Verb.gather [Verb.say p.2] (webhook cfg.base_webhook_url "/conversation") 5])

/-- `POST /conversation`: one turn of the dialogue engine.  The transport layer
extracts `user_text = SpeechResult or Digits or ""` from the form; the handler
classifies it, stores a known intent as `last_intent`, speaks that intent's
first-turn prompt (with `talk_agent` transferring the call instead of
listening on), and delegates unknown intents to `next_step`. -/
def conversation (cfg : Config) (g : OracleOutcome) (σ : Store) (call_id : String)
    (user_text : Str) : Store × List Verb :=
  let intent := detect_intent g (some user_text)
  let context := (σ call_id).getD ⟨none, none, none⟩
  let σ1 : Store :=
    if intent ≠ "" ∧ intent ≠ "unknown" then
      Store.put σ call_id { context with last_intent := some intent }
    else σ
  if intent = "book_ticket" then
    (σ1, [Verb.say (str "You want to book a ticket. Which class would you prefer, Sleeper or AC? Press 1 for AC and 2 for Sleeper, or say your choice."),
          Verb.gather [Verb.say (str "Is there anything else you’d like help with?")]
            (webhook cfg.base_webhook_url "/conversation") 5])
  else if intent = "check_pnr" then
    (σ1, [Verb.say (str "Please tell me your ten digit P N R number."),
          Verb.gather [Verb.say (str "Is there anything else you’d like help with?")]
            (webhook cfg.base_webhook_url "/conversation") 5])
  else if intent = "cancel_ticket" then
    (σ1, [Verb.say (str "Your ticket cancellation request has been received. Refunds take five to seven days."),
          Verb.gather [Verb.say (str "Is there anything else you’d like help with?")]
            (webhook cfg.base_webhook_url "/conversation") 5])
  else if intent = "fare_enquiry" then
    (σ1, [Verb.say (str "Train fare enquiry. Please tell me your train number."),
          Verb.gather [Verb.say (str "Is there anything else you’d like help with?")]
            (webhook cfg.base_webhook_url "/conversation") 5])
  else if intent = "tatkal_info" then
    (σ1, [Verb.say (str "Tatkal booking opens one day in advance: 10 AM for AC and 11 AM for non-AC classes."),
          Verb.gather [Verb.say (str "Is there anything else you’d like help with?")]
            (webhook cfg.base_webhook_url "/conversation") 5])
  else if intent = "talk_agent" then
    (σ1, [Verb.say (str "Connecting you to a support agent."),
          Verb.dial (str (if cfg.support_phone_number ≠ "" then cfg.support_phone_number
            else "+911234567890"))])
  else if intent = "special_assistance" then
    (σ1, [Verb.say (str "Our special assistance team will help you shortly. Please hold."),
          Verb.gather [Verb.say (str "Is there anything else you’d like help with?")]
            (webhook cfg.base_webhook_url "/conversation") 5])
  else if intent = "train_live_status" then
    (σ1, [Verb.say (str "Please tell me your train number to check live running status."),
          Verb.gather [Verb.say (str "Is there anything else you’d like help with?")]
            (webhook cfg.base_webhook_url "/conversation") 5])
  else if intent = "platform_locator" then
    (σ1, [Verb.say (str "Please tell me your train number to locate the platform."),
          Verb.gather [Verb.say (str "Is there anything else you’d like help with?")]
            (webhook cfg.base_webhook_url "/conversation") 5])
  else next_step cfg σ1 call_id (some user_text)

/-! ## Outbound call placement (`POST /call/start`) -/

/-- Outcome of `client.calls.create`: the provider accepts (returning a status
and a call SID) or raises an exception with a message. -/
inductive ProviderOutcome where
  | success (status : String) (sid : String)
  | failure (msg : String)

/-- The JSON value returned by `start_real_call`: the success record
`{status, sid, to}` or an `{"error": ...}` record. -/
inductive CallResult where
  | ok (status sid toNum : String)
  | err (error : String)
deriving DecidableEq

/-- Python truthiness of an optional string (`None` and `""` are falsy). -/
def pyTruthy : Option String → Bool
  | none => false
  | some s => !s.isEmpty

/-- `start_real_call(payload)`: validates the destination number, the Twilio
client/from-number configuration and the callback base URL, and only then
attempts the provider call, mapping its outcome to a structured value.
`clientOk` is whether the module-level Twilio `client` is non-`None`. -/
def start_real_call (clientOk : Bool) (phone : Option String) (base_url : String)
    (provider : ProviderOutcome) (payload_to : Option String) : CallResult :=
  if pyTruthy payload_to = false then CallResult.err "Missing \x27to\x27 number"
  else if clientOk = false ∨ pyTruthy phone = false then
    CallResult.err "Twilio not configured on server"
  else if base_url = "" then CallResult.err "BASE_WEBHOOK_URL not configured"
  else
    match provider with
    | ProviderOutcome.success status sid => CallResult.ok status sid (payload_to.getD "")
    | ProviderOutcome.failure msg => CallResult.err msg

/-! ## Spec-side view of the ordered keyword rules (for the rule-order claim) -/

/-- The keyword rule table in the exact order listed by the code and the spec.
Spec-side companion of `ruleIntent`, used to state the first-match-wins
property. -/
def rulesTable : List (List Str × String) :=
  [([str "cancel", str "refund"], "cancel_ticket"),
   ([str "book", str "reserve", str "ticket", str "reservation"], "book_ticket"),
   ([str "pnr", str "status"], "check_pnr"),
   ([str "fare", str "cost", str "price", str "how much"], "fare_enquiry"),
   ([str "tatkal"], "tatkal_info"),
   ([str "agent", str "operator", str "representative", str "customer care"], "talk_agent"),
   ([str "assistance", str "help", str "support"], "special_assistance"),
   ([str "live status", str "running status", str "where is train", str "running"], "train_live_status"),
   ([str "platform", str "which platform", str "where platform"], "platform_locator")]

/-- First-match-wins evaluation of an ordered rule list. -/
def applyRules : List (List Str × String) → Str → String
  | [], _ => "unknown"
  | r :: rest, t => if searchWB r.1 t = true then r.2 else applyRules rest t

/-! ## Auxiliary configuration and store values for concrete evaluations -/

/-- Local-test configuration: no webhook base URL, no support number. -/
def cfg0 : Config := ⟨"", ""⟩

/-! ## Helper lemmas -/

theorem Store.put_lookup (σ : Store) (k : String) (c : Ctx) : Store.put σ k c k = some c := by
  simp [Store.put]

theorem Store.put_self {σ : Store} {k : String} {c : Ctx} (h : σ k = some c) :
    Store.put σ k c = σ := by
  funext k'
  by_cases hk : k' = k
  · subst hk; simp [Store.put, h]
  · simp [Store.put, hk]

theorem pyLowerChar_digit {c : Char} (h : pyIsdigitChar c = true) : pyLowerChar c = c := by
  simp only [pyIsdigitChar, Bool.and_eq_true, decide_eq_true_eq] at h
  rw [pyLowerChar, if_neg (by omega)]

theorem pyLower_digits : ∀ {s : Str}, s.all pyIsdigitChar = true → pyLower s = s
  | [], _ => rfl
  | c :: cs, h => by
    simp only [List.all_cons, Bool.and_eq_true] at h
    simp only [pyLower, List.map_cons, List.cons.injEq]
    exact ⟨pyLowerChar_digit h.1, pyLower_digits h.2⟩

theorem not_space_of_digit {c : Char} (h : pyIsdigitChar c = true) : pyIsSpace c = false := by
  simp only [pyIsdigitChar, Bool.and_eq_true, decide_eq_true_eq] at h
  have h1 : c.toNat ≠ 32 := by omega
  have h2 : ¬ c.toNat ≤ 13 := by omega
  simp [pyIsSpace, h1, h2]

theorem dropWhile_no_space {s : Str} (h : ∀ c ∈ s, pyIsSpace c = false) :
    s.dropWhile pyIsSpace = s := by
  cases s with
  | nil => rfl
  | cons c cs => simp [List.dropWhile_cons, h c (by simp)]

theorem pyStrip_digits {s : Str} (h : s.all pyIsdigitChar = true) : pyStrip s = s := by
  simp only [List.all_eq_true] at h
  unfold pyStrip
  rw [dropWhile_no_space fun c hc => not_space_of_digit (h c hc),
    dropWhile_no_space fun c hc => not_space_of_digit (h c (List.mem_reverse.mp hc)),
    List.reverse_reverse]

theorem detect_intent_digits {s : Str} (g : OracleOutcome) (h0 : s ≠ [])
    (h : s.all pyIsdigitChar = true) :
    detect_intent g (some s) = map_digits_to_intent s := by
  simp only [detect_intent, pyLower_digits h, pyStrip_digits h]
  rw [if_pos]
  simp [pyIsdigitStr, h, h0]

theorem map_digits_not_listed {s : Str}
    (h : s ∉ [str "1", str "2", str "3", str "4", str "5",
      str "6", str "7", str "8", str "9"]) :
    map_digits_to_intent s = "unknown" := by
  simp only [List.mem_cons, List.not_mem_nil, or_false, not_or] at h
  obtain ⟨h1, h2, h3, h4, h5, h6, h7, h8, h9⟩ := h
  simp [map_digits_to_intent, h1, h2, h3, h4, h5, h6, h7, h8, h9]

theorem detect_intent_absorb {g : OracleOutcome} (h : detect_intent_gemini g = "unknown")
    (t : Option Str) : detect_intent g t = detect_intent OracleOutcome.noKey t := by
  cases t with
  | none => rfl
  | some s =>
    simp only [detect_intent, h]
    norm_num [detect_intent_gemini]

theorem conversation_unknown {cfg : Config} {g : OracleOutcome} {σ : Store} {cid : String}
    {u : Str} (h : detect_intent g (some u) = "unknown") :
    conversation cfg g σ cid u = next_step cfg σ cid (some u) := by
  simp [conversation, h]

theorem applyRules_append (pre : List (List Str × String)) (pats : List Str) (i : String)
    (post : List (List Str × String)) (t : Str)
    (hpre : pre.all (fun r => !searchWB r.1 t) = true)
    (hhit : searchWB pats t = true) :
    applyRules (pre ++ (pats, i) :: post) t = i := by
  induction pre with
  | nil => simp [applyRules, hhit]
  | cons r rest ih =>
    simp only [List.all_cons, Bool.and_eq_true, Bool.not_eq_true'] at hpre
    simp [applyRules, hpre.1, ih (by simp [List.all_eq_true] at hpre ⊢; exact hpre.2)]

theorem ruleIntent_eq_applyRules (t : Str) : ruleIntent t = applyRules rulesTable t := rfl

/-! ## Claims -/

/-- C1, counterexample.  The claim says the termination check takes priority
over all intent classification, and fires on any utterance whose normalized
text contains a termination word.  Both parts fail on the code: (a) the
utterance "no, cancel" contains the termination word "no", yet the turn
classifies it as `cancel_ticket`, speaks the cancellation prompt, keeps
listening and stores `last_intent` instead of terminating and deleting the
context; (b) the utterance "now" contains "no" as a substring, yet the turn
produces the generic fallback with the gather still open (the code's check is
a word-boundary regex and only runs when classification yields unknown). -/
theorem C1_counterexample :
    (pyIn (str "no") (pyLower (str "no, cancel")) = true ∧
      (conversation cfg0 OracleOutcome.noKey emptyStore "c1" (str "no, cancel")).2 =
        [Verb.say (str "Your ticket cancellation request has been received. Refunds take five to seven days."),
         Verb.gather [Verb.say (str "Is there anything else you’d like help with?")] "/conversation" 5] ∧
      (conversation cfg0 OracleOutcome.noKey emptyStore "c1" (str "no, cancel")).1 "c1" =
        some ⟨some "cancel_ticket", none, none⟩) ∧
    (pyIn (str "no") (pyLower (str "now")) = true ∧
      (conversation cfg0 OracleOutcome.noKey emptyStore "c1x" (str "now")).2 =
        [Verb.gather [Verb.say (str "Sorry, I didn’t understand that. Could you please repeat?")] "/conversation" 5] ∧
      (conversation cfg0 OracleOutcome.noKey emptyStore "c1x" (str "now")).1 "c1x" =
        some ⟨none, none, none⟩) :=
  ⟨⟨by decide, by rfl, by decide⟩, ⟨by decide, by rfl, by decide⟩⟩

/-- C1 (amended): for every call (any stored context, including slot content,
and fresh calls) and every utterance that the classifier maps to unknown and
whose normalized text contains a termination word as a whole word
(word-boundary match), the turn produces the closing utterance with a
terminate-call decision (say + hangup, no gather) and deletes that call's
context, taking priority over all slot processing. -/
theorem C1_theorem (cfg : Config) (g : OracleOutcome) (σ : Store) (cid : String) (u : Str)
    (hI : detect_intent g (some u) = "unknown")
    (hT : searchWB termWords (pyLower u) = true) :
    conversation cfg g σ cid u =
      (Store.pop σ cid,
       [Verb.say (str "Thank you for using Indian Railways helpline. Have a great journey ahead!"),
        Verb.hangup]) := by
  rw [conversation_unknown hI]
  simp only [next_step, Option.getD_some]
  rw [if_pos hT]

/-- C1 witness: with stored context `last_intent=book_ticket, booking_class=AC`
and utterance "thanks", the turn terminates and removes the context. -/
theorem C1_witness :
    detect_intent OracleOutcome.noKey (some (str "thanks")) = "unknown" ∧
    searchWB termWords (pyLower (str "thanks")) = true ∧
    conversation cfg0 OracleOutcome.noKey
        (Store.put emptyStore "w1" ⟨some "book_ticket", some "AC", none⟩) "w1" (str "thanks") =
      (Store.pop (Store.put emptyStore "w1" ⟨some "book_ticket", some "AC", none⟩) "w1",
       [Verb.say (str "Thank you for using Indian Railways helpline. Have a great journey ahead!"),
        Verb.hangup]) :=
  ⟨by decide, by decide,
    C1_theorem cfg0 OracleOutcome.noKey
      (Store.put emptyStore "w1" ⟨some "book_ticket", some "AC", none⟩) "w1" (str "thanks")
      (by decide) (by decide)⟩

/-- C2, counterexample.  The claim says that with `last_intent=book_ticket`
an utterance that is exactly "1" sets `booking_class=AC` and prompts for the
travel date.  On the code, "1" is classified by the digit table to
`book_ticket` before any follow-up runs, so the turn speaks the first-turn
booking prompt and leaves `booking_class` unset. -/
theorem C2_counterexample :
    (conversation cfg0 OracleOutcome.noKey
        (Store.put emptyStore "c2" ⟨some "book_ticket", none, none⟩) "c2" (str "1")).2 =
      [Verb.say (str "You want to book a ticket. Which class would you prefer, Sleeper or AC? Press 1 for AC and 2 for Sleeper, or say your choice."),
       Verb.gather [Verb.say (str "Is there anything else you’d like help with?")] "/conversation" 5] ∧
    (conversation cfg0 OracleOutcome.noKey
        (Store.put emptyStore "c2" ⟨some "book_ticket", none, none⟩) "c2" (str "1")).1 "c2" =
      some ⟨some "book_ticket", none, none⟩ :=
  ⟨by rfl, by decide⟩

/-- C2 (amended): the follow-up sub-machine keyed on the stored `last_intent`
runs only for turns whose utterance classifies to unknown (and matches no
termination word); with `last_intent=book_ticket`, an utterance mentioning
"ac" (including exactly "ac") sets `booking_class=AC` and prompts for the
travel date, and an utterance not mentioning "ac" but mentioning "sleeper"
(including exactly "sleeper") sets `booking_class=Sleeper` and prompts for
the travel date.  (Utterances exactly "1" or "2" never reach the follow-up
from a turn: they classify via the digit table.) -/
theorem C2_theorem (cfg : Config) (g : OracleOutcome) (σ : Store) (cid : String) (ctx : Ctx)
    (u : Str)
    (hc : σ cid = some ctx) (hli : ctx.last_intent = some "book_ticket")
    (hI : detect_intent g (some u) = "unknown")
    (hT : searchWB termWords (pyLower u) = false) :
    (pyIn (str "ac") (pyLower u) = true →
      conversation cfg g σ cid u =
        (Store.put σ cid { ctx with booking_class := some "AC" },
         [Verb.gather [Verb.say (str "A C class selected. Please confirm your travel date.")]
            (webhook cfg.base_webhook_url "/conversation") 5])) ∧
    (pyIn (str "ac") (pyLower u) = false → pyLower u ≠ str "1" →
      (pyIn (str "sleeper") (pyLower u) = true ∨ pyLower u = str "2" ∨
        pyLower u = str "sleeper") →
      conversation cfg g σ cid u =
        (Store.put σ cid { ctx with booking_class := some "Sleeper" },
         [Verb.gather [Verb.say (str "Sleeper class selected. Please confirm your travel date.")]
            (webhook cfg.base_webhook_url "/conversation") 5])) := by
  rw [conversation_unknown hI]
  simp only [next_step, Option.getD_some, hc]
  rw [if_neg (by simp [hT])]
  refine ⟨fun hac => ?_, fun hac h1 hs => ?_⟩
  · rw [if_pos hli, if_pos (Or.inl hac)]
  · have hne : ¬(pyIn (str "ac") (pyLower u) = true ∨ pyLower u = str "1" ∨
        pyLower u = str "ac") := by
      rintro (h | h | h)
      · rw [hac] at h; cases h
      · exact h1 h
      · rw [h] at hac; revert hac; decide
    rw [if_pos hli, if_neg hne, if_pos hs]

/-- C2 witness: with `last_intent=book_ticket`, the utterance "ac" selects AC
and the utterance "sleeper" selects Sleeper, both prompting for the date. -/
theorem C2_witness :
    (Store.put emptyStore "w2" ⟨some "book_ticket", none, none⟩) "w2" =
        some ⟨some "book_ticket", none, none⟩ ∧
    detect_intent OracleOutcome.noKey (some (str "ac")) = "unknown" ∧
    detect_intent OracleOutcome.noKey (some (str "economy sleeper")) = "unknown" ∧
    conversation cfg0 OracleOutcome.noKey
        (Store.put emptyStore "w2" ⟨some "book_ticket", none, none⟩) "w2" (str "ac") =
      (Store.put (Store.put emptyStore "w2" ⟨some "book_ticket", none, none⟩) "w2"
          ⟨some "book_ticket", some "AC", none⟩,
       [Verb.gather [Verb.say (str "A C class selected. Please confirm your travel date.")]
          "/conversation" 5]) ∧
    conversation cfg0 OracleOutcome.noKey
        (Store.put emptyStore "w2" ⟨some "book_ticket", none, none⟩) "w2"
        (str "economy sleeper") =
      (Store.put (Store.put emptyStore "w2" ⟨some "book_ticket", none, none⟩) "w2"
          ⟨some "book_ticket", some "Sleeper", none⟩,
       [Verb.gather [Verb.say (str "Sleeper class selected. Please confirm your travel date.")]
          "/conversation" 5]) :=
  ⟨by decide, by decide, by decide,
    (C2_theorem cfg0 OracleOutcome.noKey
        (Store.put emptyStore "w2" ⟨some "book_ticket", none, none⟩) "w2"
        ⟨some "book_ticket", none, none⟩ (str "ac") (by decide) rfl (by decide) (by decide)).1
      (by decide),
    (C2_theorem cfg0 OracleOutcome.noKey
        (Store.put emptyStore "w2" ⟨some "book_ticket", none, none⟩) "w2"
        ⟨some "book_ticket", none, none⟩ (str "economy sleeper") (by decide) rfl (by decide)
        (by decide)).2
      (by decide) (by decide) (Or.inl (by decide))⟩

/-- C3: a turn always terminates in a Decision (the turn handler is a total
function into a store/TwiML pair) and any absorbed oracle outcome — the key
missing, an exception from the API call, an out-of-set or "unknown" reply,
i.e. exactly the outcomes on which `detect_intent_gemini` yields "unknown" —
makes the whole turn behave as if the oracle were unconfigured, so the
rule-based classification runs on the normalized utterance whenever it is not
a pure digit string. -/
theorem C3_theorem (cfg : Config) (g : OracleOutcome) (σ : Store) (cid : String) (u : Str)
    (hg : detect_intent_gemini g = "unknown") :
    conversation cfg g σ cid u = conversation cfg OracleOutcome.noKey σ cid u ∧
    (pyIsdigitStr (pyStrip (pyLower u)) = false →
      detect_intent g (some u) = ruleIntent (pyStrip (pyLower u))) := by
  constructor
  · unfold conversation
    rw [detect_intent_absorb hg]
  · intro hd
    simp [detect_intent, hd, hg]

/-- C3 witness: an oracle exception on the utterance "hello" is absorbed,
the turn equals the oracle-unconfigured turn, and classification comes from
the keyword rules. -/
theorem C3_witness :
    detect_intent_gemini OracleOutcome.exn = "unknown" ∧
    (conversation cfg0 OracleOutcome.exn emptyStore "c3" (str "hello") =
        conversation cfg0 OracleOutcome.noKey emptyStore "c3" (str "hello") ∧
      (pyIsdigitStr (pyStrip (pyLower (str "hello"))) = false →
        detect_intent OracleOutcome.exn (some (str "hello")) =
          ruleIntent (pyStrip (pyLower (str "hello"))))) :=
  ⟨rfl, C3_theorem cfg0 OracleOutcome.exn emptyStore "c3" (str "hello") rfl⟩

/-- C4: for every nonempty all-digit utterance and every oracle outcome,
classification equals the fixed digit table (so the oracle and the keyword
rules are never consulted); digits "1".."9" map to the listed intents and
every other all-digit string maps to unknown. -/
theorem C4_theorem (g : OracleOutcome) (s : Str) (h0 : s ≠ [])
    (h : s.all pyIsdigitChar = true) :
    detect_intent g (some s) = map_digits_to_intent s ∧
    (s = str "1" → detect_intent g (some s) = "book_ticket") ∧
    (s = str "2" → detect_intent g (some s) = "check_pnr") ∧
    (s = str "3" → detect_intent g (some s) = "cancel_ticket") ∧
    (s = str "4" → detect_intent g (some s) = "fare_enquiry") ∧
    (s = str "5" → detect_intent g (some s) = "tatkal_info") ∧
    (s = str "6" → detect_intent g (some s) = "talk_agent") ∧
    (s = str "7" → detect_intent g (some s) = "special_assistance") ∧
    (s = str "8" → detect_intent g (some s) = "train_live_status") ∧
    (s = str "9" → detect_intent g (some s) = "platform_locator") ∧
    (s ∉ [str "1", str "2", str "3", str "4", str "5",
        str "6", str "7", str "8", str "9"] →
      detect_intent g (some s) = "unknown") := by
  have hmain := detect_intent_digits g h0 h
  refine ⟨hmain, fun hs => ?_, fun hs => ?_, fun hs => ?_, fun hs => ?_, fun hs => ?_,
    fun hs => ?_, fun hs => ?_, fun hs => ?_, fun hs => ?_,
    fun hm => by rw [hmain]; exact map_digits_not_listed hm⟩
  all_goals subst hs
  all_goals rw [hmain]
  all_goals decide

/-- C4 witness: the digit "7" classifies to `special_assistance` under any
oracle outcome, and the two-digit string "42" is all digits and classifies
to unknown. -/
theorem C4_witness :
    (str "7" ≠ [] ∧ (str "7").all pyIsdigitChar = true ∧
      detect_intent OracleOutcome.exn (some (str "7")) = map_digits_to_intent (str "7") ∧
      detect_intent OracleOutcome.exn (some (str "7")) = "special_assistance") ∧
    (str "42" ≠ [] ∧ (str "42").all pyIsdigitChar = true ∧
      (str "42" ∉ [str "1", str "2", str "3", str "4", str "5",
          str "6", str "7", str "8", str "9"]) ∧
      detect_intent OracleOutcome.exn (some (str "42")) = "unknown") :=
  ⟨⟨by decide, by decide, (C4_theorem OracleOutcome.exn (str "7") (by decide) (by decide)).1,
      (C4_theorem OracleOutcome.exn (str "7") (by decide) (by decide)).2.2.2.2.2.2.2.1 rfl⟩,
    ⟨by decide, by decide, by decide,
      (C4_theorem OracleOutcome.exn (str "42") (by decide)
            (by decide)).2.2.2.2.2.2.2.2.2.2
        (by decide)⟩⟩

/-- C5: when the oracle gives no decision and the normalized utterance is not
a pure digit string, classification is first-match-wins over the keyword
rules in exactly the listed order: if the rule table splits as
`pre ++ (pats, i) :: post` with no rule of `pre` matching and `pats`
matching, the classified intent is `i`. -/
theorem C5_theorem (g : OracleOutcome) (u : Str) (pre post : List (List Str × String))
    (pats : List Str) (i : String)
    (hg : detect_intent_gemini g = "unknown")
    (hnd : pyIsdigitStr (pyStrip (pyLower u)) = false)
    (hsplit : rulesTable = pre ++ (pats, i) :: post)
    (hpre : pre.all (fun r => !searchWB r.1 (pyStrip (pyLower u))) = true)
    (hhit : searchWB pats (pyStrip (pyLower u)) = true) :
    detect_intent g (some u) = i ∧ ruleIntent (pyStrip (pyLower u)) = i := by
  have hrule : ruleIntent (pyStrip (pyLower u)) = i := by
    rw [ruleIntent_eq_applyRules, hsplit, applyRules_append pre pats i post _ hpre hhit]
  exact ⟨by simp [detect_intent, hnd, hg, hrule], hrule⟩

/-- C5 witness: "running status" matches both the `check_pnr` rule ("status")
and the later `train_live_status` rule ("running status", "running"); the
earlier rule wins, so the utterance classifies to `check_pnr`. -/
theorem C5_witness :
    detect_intent_gemini OracleOutcome.noKey = "unknown" ∧
    pyIsdigitStr (pyStrip (pyLower (str "running status"))) = false ∧
    rulesTable =
      [([str "cancel", str "refund"], "cancel_ticket"),
        ([str "book", str "reserve", str "ticket", str "reservation"], "book_ticket")] ++
        ([str "pnr", str "status"], "check_pnr") ::
          [([str "fare", str "cost", str "price", str "how much"], "fare_enquiry"),
            ([str "tatkal"], "tatkal_info"),
            ([str "agent", str "operator", str "representative", str "customer care"], "talk_agent"),
            ([str "assistance", str "help", str "support"], "special_assistance"),
            ([str "live status", str "running status", str "where is train", str "running"], "train_live_status"),
            ([str "platform", str "which platform", str "where platform"], "platform_locator")] ∧
    searchWB [str "live status", str "running status", str "where is train", str "running"]
        (pyStrip (pyLower (str "running status"))) = true ∧
    (detect_intent OracleOutcome.noKey (some (str "running status")) = "check_pnr" ∧
      ruleIntent (pyStrip (pyLower (str "running status"))) = "check_pnr") :=
  ⟨rfl, by decide, by decide, by decide,
    C5_theorem OracleOutcome.noKey (str "running status")
      [([str "cancel", str "refund"], "cancel_ticket"),
        ([str "book", str "reserve", str "ticket", str "reservation"], "book_ticket")]
      [([str "fare", str "cost", str "price", str "how much"], "fare_enquiry"),
        ([str "tatkal"], "tatkal_info"),
        ([str "agent", str "operator", str "representative", str "customer care"], "talk_agent"),
        ([str "assistance", str "help", str "support"], "special_assistance"),
        ([str "live status", str "running status", str "where is train", str "running"], "train_live_status"),
        ([str "platform", str "which platform", str "where platform"], "platform_locator")]
      [str "pnr", str "status"] "check_pnr" rfl (by decide) (by decide) (by decide) (by decide)⟩

/-- C6: in the check_pnr follow-up (a stored context with
`last_intent=check_pnr`, and an utterance that reaches the follow-up, i.e.
matches no termination keyword), a normalized utterance is accepted as a PNR
if and only if it is exactly 10 digits: then the response confirms the PNR
(the spoken text is "PNR … is confirmed. The train is running on time. Need
further help?"); every other utterance yields the re-prompt for a valid
ten-digit PNR as a conversational response (no exception — the handler is a
total function), and in both cases the stored context is unchanged (the
store written back equals the input store). -/
theorem C6_theorem (cfg : Config) (σ : Store) (cid : String) (ctx : Ctx) (u : Str)
    (hc : σ cid = some ctx) (hli : ctx.last_intent = some "check_pnr")
    (hT : searchWB termWords (pyLower u) = false) :
    (pyIsdigitStr (pyLower u) = true ∧ (pyLower u).length = 10 →
      next_step cfg σ cid (some u) =
        (σ, [Verb.gather
              [Verb.say (str "PNR " ++ pyLower u ++
                str " is confirmed. The train is running on time. Need further help?")]
              (webhook cfg.base_webhook_url "/conversation") 5])) ∧
    (¬(pyIsdigitStr (pyLower u) = true ∧ (pyLower u).length = 10) →
      next_step cfg σ cid (some u) =
        (σ, [Verb.gather [Verb.say (str "Please provide a valid ten digit P N R number.")]
              (webhook cfg.base_webhook_url "/conversation") 5])) := by
  have hbk : ctx.last_intent ≠ some "book_ticket" := by rw [hli]; decide
  simp only [next_step, Option.getD_some, hc]
  rw [if_neg (by simp [hT])]
  refine ⟨fun hpnr => ?_, fun hpnr => ?_⟩
  · rw [if_neg hbk, if_pos hli, if_pos hpnr]
    rw [Store.put_self hc]
  · rw [if_neg hbk, if_pos hli, if_neg hpnr]
    rw [Store.put_self hc]

/-- C6 witness: with `last_intent=check_pnr`, "1234567890" is confirmed and
"ABC1234567" is re-prompted, both leaving the store unchanged. -/
theorem C6_witness :
    ((Store.put emptyStore "w6" ⟨some "check_pnr", none, none⟩) "w6" =
        some ⟨some "check_pnr", none, none⟩ ∧
      searchWB termWords (pyLower (str "1234567890")) = false ∧
      pyIsdigitStr (pyLower (str "1234567890")) = true ∧
      (pyLower (str "1234567890")).length = 10 ∧
      next_step cfg0 (Store.put emptyStore "w6" ⟨some "check_pnr", none, none⟩) "w6"
          (some (str "1234567890")) =
        (Store.put emptyStore "w6" ⟨some "check_pnr", none, none⟩,
         [Verb.gather
            [Verb.say (str "PNR " ++ pyLower (str "1234567890") ++
              str " is confirmed. The train is running on time. Need further help?")]
            "/conversation" 5])) ∧
    (searchWB termWords (pyLower (str "ABC1234567")) = false ∧
      ¬(pyIsdigitStr (pyLower (str "ABC1234567")) = true ∧
          (pyLower (str "ABC1234567")).length = 10) ∧
      next_step cfg0 (Store.put emptyStore "w6" ⟨some "check_pnr", none, none⟩) "w6"
          (some (str "ABC1234567")) =
        (Store.put emptyStore "w6" ⟨some "check_pnr", none, none⟩,
         [Verb.gather [Verb.say (str "Please provide a valid ten digit P N R number.")]
            "/conversation" 5])) :=
  ⟨⟨by decide, by decide, by decide, by decide,
      (C6_theorem cfg0 (Store.put emptyStore "w6" ⟨some "check_pnr", none, none⟩) "w6"
            ⟨some "check_pnr", none, none⟩ (str "1234567890") (by decide) rfl (by decide)).1
        ⟨by decide, by decide⟩⟩,
    ⟨by decide, by decide,
      (C6_theorem cfg0 (Store.put emptyStore "w6" ⟨some "check_pnr", none, none⟩) "w6"
            ⟨some "check_pnr", none, none⟩ (str "ABC1234567") (by decide) rfl (by decide)).2
        (by decide)⟩⟩

/-- C7, counterexample.  The claim says an unknown-classifying utterance on a
fresh call changes nothing in the Session Store (no context record created).
On the code, `next_step` writes the default context back, so the turn on
"asdfghjk qwert" creates the record `{"last_intent": None}` for the call. -/
theorem C7_counterexample :
    emptyStore "c7" = none ∧
    detect_intent OracleOutcome.noKey (some (str "asdfghjk qwert")) = "unknown" ∧
    (conversation cfg0 OracleOutcome.noKey emptyStore "c7" (str "asdfghjk qwert")).1 "c7" =
      some ⟨none, none, none⟩ :=
  ⟨rfl, by decide, by decide⟩

/-- C7 (amended): for a fresh call, a turn whose utterance classifies to
unknown (and matches no termination word) produces the generic fallback
prompt and stores an empty context record for the call (last_intent absent,
no slots — behaviorally equivalent to no context), and a subsequent turn
with the utterance "book ticket" (under any oracle outcome that gives no
decision) still produces the book_ticket first-turn prompt and stores
`last_intent=book_ticket`. -/
theorem C7_theorem (cfg : Config) (g g' : OracleOutcome) (σ : Store) (cid : String) (u : Str)
    (hfresh : σ cid = none)
    (hI : detect_intent g (some u) = "unknown")
    (hT : searchWB termWords (pyLower u) = false)
    (hg' : detect_intent_gemini g' = "unknown") :
    conversation cfg g σ cid u =
      (Store.put σ cid ⟨none, none, none⟩,
       [Verb.gather [Verb.say (str "Sorry, I didn’t understand that. Could you please repeat?")]
          (webhook cfg.base_webhook_url "/conversation") 5]) ∧
    conversation cfg g' (Store.put σ cid ⟨none, none, none⟩) cid (str "book ticket") =
      (Store.put (Store.put σ cid ⟨none, none, none⟩) cid ⟨some "book_ticket", none, none⟩,
       [Verb.say (str "You want to book a ticket. Which class would you prefer, Sleeper or AC? Press 1 for AC and 2 for Sleeper, or say your choice."),
        Verb.gather [Verb.say (str "Is there anything else you’d like help with?")]
          (webhook cfg.base_webhook_url "/conversation") 5]) := by
  constructor
  · rw [conversation_unknown hI]
    simp only [next_step, Option.getD_some, hfresh]
    rw [if_neg (by simp [hT])]
    simp
  · have hbt : detect_intent g' (some (str "book ticket")) = "book_ticket" := by
      rw [detect_intent_absorb hg']; decide
    simp [conversation, hbt, Store.put_lookup]

/-- C7 witness: on a fresh call, "asdfghjk qwert" yields the generic fallback
and an empty record, after which "book ticket" still classifies and prompts. -/
theorem C7_witness :
    emptyStore "w7" = none ∧
    detect_intent OracleOutcome.noKey (some (str "asdfghjk qwert")) = "unknown" ∧
    searchWB termWords (pyLower (str "asdfghjk qwert")) = false ∧
    detect_intent_gemini OracleOutcome.noKey = "unknown" ∧
    (conversation cfg0 OracleOutcome.noKey emptyStore "w7" (str "asdfghjk qwert") =
        (Store.put emptyStore "w7" ⟨none, none, none⟩,
         [Verb.gather [Verb.say (str "Sorry, I didn’t understand that. Could you please repeat?")]
            "/conversation" 5]) ∧
      conversation cfg0 OracleOutcome.noKey (Store.put emptyStore "w7" ⟨none, none, none⟩) "w7"
          (str "book ticket") =
        (Store.put (Store.put emptyStore "w7" ⟨none, none, none⟩) "w7"
            ⟨some "book_ticket", none, none⟩,
         [Verb.say (str "You want to book a ticket. Which class would you prefer, Sleeper or AC? Press 1 for AC and 2 for Sleeper, or say your choice."),
          Verb.gather [Verb.say (str "Is there anything else you’d like help with?")]
            "/conversation" 5])) :=
  ⟨rfl, by decide, by decide, rfl,
    C7_theorem cfg0 OracleOutcome.noKey OracleOutcome.noKey emptyStore "w7"
      (str "asdfghjk qwert") rfl (by decide) (by decide) rfl⟩

/-- C8: a fresh-call turn classified as `talk_agent` speaks
"Connecting you to a support agent.", dials the configured agent number, and
its TwiML contains no gather (keep-listening) directive — the transfer is a
terminal action for the turn. -/
theorem C8_theorem (cfg : Config) (g : OracleOutcome) (σ : Store) (cid : String) (u : Str)
    (hfresh : σ cid = none)
    (hI : detect_intent g (some u) = "talk_agent")
    (hs : cfg.support_phone_number ≠ "") :
    conversation cfg g σ cid u =
      (Store.put σ cid ⟨some "talk_agent", none, none⟩,
       [Verb.say (str "Connecting you to a support agent."),
        Verb.dial (str cfg.support_phone_number)]) ∧
    (conversation cfg g σ cid u).2.any isGatherVerb = false := by
  have h1 : conversation cfg g σ cid u =
      (Store.put σ cid ⟨some "talk_agent", none, none⟩,
       [Verb.say (str "Connecting you to a support agent."),
        Verb.dial (str cfg.support_phone_number)]) := by
    simp [conversation, hI, hfresh, hs]
  exact ⟨h1, by rw [h1]; rfl⟩

/-- C8 witness: pressing "6" on a fresh call transfers to the configured
support number with no gather in the response. -/
theorem C8_witness :
    emptyStore "w8" = none ∧
    detect_intent OracleOutcome.exn (some (str "6")) = "talk_agent" ∧
    ("+911112223334" : String) ≠ "" ∧
    (conversation ⟨"", "+911112223334"⟩ OracleOutcome.exn emptyStore "w8" (str "6") =
        (Store.put emptyStore "w8" ⟨some "talk_agent", none, none⟩,
         [Verb.say (str "Connecting you to a support agent."),
          Verb.dial (str "+911112223334")]) ∧
      (conversation ⟨"", "+911112223334"⟩ OracleOutcome.exn emptyStore "w8" (str "6")).2.any
          isGatherVerb = false) :=
  ⟨rfl, by decide, by decide,
    C8_theorem ⟨"", "+911112223334"⟩ OracleOutcome.exn emptyStore "w8" (str "6") rfl
      (by decide) (by decide)⟩

/-- C9: the outbound-call operation returns a structured error value (it is a
total function into `CallResult`, never touching the session store): a
missing or empty destination, an unconfigured client/from-number, or a
missing callback base URL each yield the corresponding error without the
provider outcome mattering (the provider is not contacted), and only with
all of these present does the result reflect the provider outcome — status
and SID on success, a structured error if the provider rejects. -/
theorem C9_theorem (clientOk : Bool) (phone : Option String) (base : String)
    (provider provider' : ProviderOutcome) (t status sid msg : String) :
    start_real_call clientOk phone base provider none =
        CallResult.err "Missing \x27to\x27 number" ∧
    start_real_call clientOk phone base provider (some "") =
        CallResult.err "Missing \x27to\x27 number" ∧
    (pyTruthy (some t) = true → (clientOk = false ∨ pyTruthy phone = false) →
      start_real_call clientOk phone base provider (some t) =
        CallResult.err "Twilio not configured on server") ∧
    (pyTruthy (some t) = true → clientOk = true → pyTruthy phone = true → base = "" →
      start_real_call clientOk phone base provider (some t) =
        CallResult.err "BASE_WEBHOOK_URL not configured") ∧
    ((clientOk = false ∨ pyTruthy phone = false ∨ base = "") →
      start_real_call clientOk phone base provider (some t) =
        start_real_call clientOk phone base provider' (some t)) ∧
    (pyTruthy (some t) = true → clientOk = true → pyTruthy phone = true → base ≠ "" →
      start_real_call clientOk phone base (ProviderOutcome.success status sid) (some t) =
          CallResult.ok status sid t ∧
        start_real_call clientOk phone base (ProviderOutcome.failure msg) (some t) =
          CallResult.err msg) := by
  refine ⟨rfl, rfl, fun h1 h2 => ?_, fun h1 h2 h3 h4 => ?_, fun h => ?_, fun h1 h2 h3 h4 => ?_⟩
  · rw [start_real_call.eq_def, if_neg (by simp [h1]), if_pos h2]
  · rw [start_real_call.eq_def, if_neg (by simp [h1]), if_neg (by simp [h2, h3]), if_pos h4]
  · by_cases h0 : pyTruthy (some t) = false
    · rw [start_real_call.eq_def, if_pos h0, start_real_call.eq_def, if_pos h0]
    · by_cases h2 : clientOk = false ∨ pyTruthy phone = false
      · rw [start_real_call.eq_def, if_neg h0, if_pos h2, start_real_call.eq_def, if_neg h0, if_pos h2]
      · have hb : base = "" := by
          rcases h with h | h | h
          · exact absurd (Or.inl h) h2
          · exact absurd (Or.inr h) h2
          · exact h
        rw [start_real_call.eq_def, if_neg h0, if_neg h2, if_pos hb,
          start_real_call.eq_def, if_neg h0, if_neg h2, if_pos hb]
  · constructor
    · rw [start_real_call.eq_def, if_neg (by simp [h1]), if_neg (by simp [h2, h3]), if_neg h4]
      rfl
    · rw [start_real_call.eq_def, if_neg (by simp [h1]), if_neg (by simp [h2, h3]), if_neg h4]

/-- C9 witness: concrete configured and misconfigured outbound-call requests. -/
theorem C9_witness :
    start_real_call true (some "+15550001111") "https://example.onrender.com"
        (ProviderOutcome.success "queued" "CA123") none =
      CallResult.err "Missing \x27to\x27 number" ∧
    start_real_call true (some "+15550001111") "https://example.onrender.com"
        (ProviderOutcome.success "queued" "CA123") (some "") =
      CallResult.err "Missing \x27to\x27 number" ∧
    (pyTruthy (some "+15550002222") = true → (true = false ∨ pyTruthy (some "+15550001111") = false) →
      start_real_call true (some "+15550001111") "https://example.onrender.com"
          (ProviderOutcome.success "queued" "CA123") (some "+15550002222") =
        CallResult.err "Twilio not configured on server") ∧
    (pyTruthy (some "+15550002222") = true → true = true →
      pyTruthy (some "+15550001111") = true → "https://example.onrender.com" = "" →
      start_real_call true (some "+15550001111") "https://example.onrender.com"
          (ProviderOutcome.success "queued" "CA123") (some "+15550002222") =
        CallResult.err "BASE_WEBHOOK_URL not configured") ∧
    ((true = false ∨ pyTruthy (some "+15550001111") = false ∨
        "https://example.onrender.com" = "") →
      start_real_call true (some "+15550001111") "https://example.onrender.com"
          (ProviderOutcome.success "queued" "CA123") (some "+15550002222") =
        start_real_call true (some "+15550001111") "https://example.onrender.com"
          (ProviderOutcome.failure "rejected by Twilio") (some "+15550002222")) ∧
    (pyTruthy (some "+15550002222") = true → true = true →
      pyTruthy (some "+15550001111") = true → "https://example.onrender.com" ≠ "" →
      start_real_call true (some "+15550001111") "https://example.onrender.com"
          (ProviderOutcome.success "queued" "CA123") (some "+15550002222") =
          CallResult.ok "queued" "CA123" "+15550002222" ∧
        start_real_call true (some "+15550001111") "https://example.onrender.com"
          (ProviderOutcome.failure "rejected by Twilio") (some "+15550002222") =
          CallResult.err "rejected by Twilio") :=
  C9_theorem true (some "+15550001111") "https://example.onrender.com"
    (ProviderOutcome.success "queued" "CA123") (ProviderOutcome.failure "rejected by Twilio")
    "+15550002222" "queued" "CA123" "rejected by Twilio"

/-- C10 (implicit): in the book_ticket follow-up (stored
`last_intent=book_ticket`, utterance reaching the follow-up, i.e. matching no
termination keyword), the AC check is a plain substring test evaluated before
the sleeper and date checks: every utterance whose lowercased text contains
the substring "ac" anywhere sets `booking_class=AC` and prompts for the
travel date — no hypothesis excludes a date phrase such as "tomorrow", so the
conclusion holds even when the date branch would otherwise capture the
utterance. -/
theorem C10_theorem (cfg : Config) (σ : Store) (cid : String) (ctx : Ctx) (u : Str)
    (hc : σ cid = some ctx) (hli : ctx.last_intent = some "book_ticket")
    (hT : searchWB termWords (pyLower u) = false)
    (hac : pyIn (str "ac") (pyLower u) = true) :
    next_step cfg σ cid (some u) =
      (Store.put σ cid { ctx with booking_class := some "AC" },
       [Verb.gather [Verb.say (str "A C class selected. Please confirm your travel date.")]
          (webhook cfg.base_webhook_url "/conversation") 5]) := by
  simp only [next_step, Option.getD_some, hc]
  rw [if_neg (by simp [hT]), if_pos hli, if_pos (Or.inl hac)]

/-- C10 witness: "call me back tomorrow" contains "ac" (inside "back") and a
date phrase ("tomorrow"), yet the follow-up selects AC and asks for the
date. -/
theorem C10_witness :
    (Store.put emptyStore "w10" ⟨some "book_ticket", none, none⟩) "w10" =
        some ⟨some "book_ticket", none, none⟩ ∧
    searchWB termWords (pyLower (str "call me back tomorrow")) = false ∧
    pyIn (str "ac") (pyLower (str "call me back tomorrow")) = true ∧
    pyIn (str "tomorrow") (pyLower (str "call me back tomorrow")) = true ∧
    next_step cfg0 (Store.put emptyStore "w10" ⟨some "book_ticket", none, none⟩) "w10"
        (some (str "call me back tomorrow")) =
      (Store.put (Store.put emptyStore "w10" ⟨some "book_ticket", none, none⟩) "w10"
          ⟨some "book_ticket", some "AC", none⟩,
       [Verb.gather [Verb.say (str "A C class selected. Please confirm your travel date.")]
          "/conversation" 5]) :=
  ⟨by decide, by decide, by decide, by decide,
    C10_theorem cfg0 (Store.put emptyStore "w10" ⟨some "book_ticket", none, none⟩) "w10"
      ⟨some "book_ticket", none, none⟩ (str "call me back tomorrow") (by decide) rfl
      (by decide) (by decide)⟩

end IVR
